import Mathlib

/-
Verification of the adaptive-learning-ecosystem shared middleware:
a shallow embedding of shared/advanced_throttling.py,
shared/rate_limiting_middleware.py and shared/auth_middleware.py,
with theorems settling the stated behavioral claims.

Python floats that only take part in comparisons and products are
modelled as rationals; unix timestamps as rationals or integers;
Redis hashes and the sqlite tables as association lists.
-/

namespace AdaptiveLearning

/-! ## System load levels (advanced_throttling.py, SystemMetrics.get_load_level) -/

inductive SystemLoadLevel
  | low
  | medium
  | high
  | critical
deriving DecidableEq, Repr

/-- Embedding of the SystemMetrics dataclass (advanced_throttling.py lines 38-48).
The timestamp is a unix time. -/
structure SystemMetrics where
  cpu_percent : ℚ
  memory_percent : ℚ
  disk_io_percent : ℚ
  network_io_percent : ℚ
  active_connections : ℕ
  response_time_avg : ℚ
  error_rate : ℚ
  timestamp : ℚ
deriving DecidableEq, Repr

/-- Embedding of SystemMetrics.get_load_level (lines 50-59): the source tests
cpu > 90 or mem > 95 for critical, then cpu > 70 or mem > 80 for high,
then cpu > 30 or mem > 50 for medium, else low. -/
def SystemMetrics.get_load_level (m : SystemMetrics) : SystemLoadLevel :=
  if m.cpu_percent > 90 ∨ m.memory_percent > 95 then .critical
  else if m.cpu_percent > 70 ∨ m.memory_percent > 80 then .high
  else if m.cpu_percent > 30 ∨ m.memory_percent > 50 then .medium
  else .low

/-- Modelled from the claim wording (strict thresholds with boundary values
escalating): low when cpu < 30 and mem < 50; medium when cpu < 70 and
mem < 80; high when cpu < 90 and mem < 95; critical otherwise.  This is the
cascade stated by the spec, used only to compare against the source. -/
def specLoadLevel (cpu mem : ℚ) : SystemLoadLevel :=
  if cpu < 30 ∧ mem < 50 then .low
  else if cpu < 70 ∧ mem < 80 then .medium
  else if cpu < 90 ∧ mem < 95 then .high
  else .critical

/-- The amended threshold cascade: boundary values belong to the lower band,
i.e. the comparisons are non-strict. -/
def amendedLoadLevel (cpu mem : ℚ) : SystemLoadLevel :=
  if cpu ≤ 30 ∧ mem ≤ 50 then .low
  else if cpu ≤ 70 ∧ mem ≤ 80 then .medium
  else if cpu ≤ 90 ∧ mem ≤ 95 then .high
  else .critical

/-! ## Adaptive multiplier (advanced_throttling.py lines 246-304) -/

/-- The load multipliers of the default ThrottleConfig (lines 95-100). -/
def load_multipliers : SystemLoadLevel → ℚ
  | .low => 12/10
  | .medium => 1
  | .high => 7/10
  | .critical => 3/10

/-- The category adjustment dictionary of _calculate_adaptive_multiplier
(lines 255-262); unknown categories fall back to 1.0 via dict.get. -/
def category_adjustments (endpoint_category : String) : ℚ :=
  if endpoint_category = "expensive" then 8/10
  else if endpoint_category = "standard" then 1
  else if endpoint_category = "auth" then 11/10
  else if endpoint_category = "admin" then 9/10
  else 1

/-- Per-tenant behavior fields read from the tenant_behavior Redis hash
(lines 288-291). -/
structure TenantBehavior where
  avg_response_time : ℚ
  error_rate : ℚ
  abuse_score : ℚ
deriving DecidableEq, Repr

/-- Embedding of _get_tenant_behavior_multiplier (lines 276-304): none stands
for a missing tenant id, unavailable Redis, an empty hash, or an exception,
all of which return 1.0. -/
def tenant_behavior_multiplier : Option TenantBehavior → ℚ
  | none => 1
  | some b =>
    if b.error_rate < 1/100 ∧ b.avg_response_time < 200 ∧ b.abuse_score < 1/10 then 12/10
    else if b.error_rate > 5/100 ∨ b.abuse_score > 5/10 then 7/10
    else 1

/-- Embedding of _calculate_adaptive_multiplier (lines 246-274): product of the
load multiplier, the category adjustment and the tenant behavior multiplier,
clamped by final = max(0.1, min(2.0, final)). -/
def calculate_adaptive_multiplier (level : SystemLoadLevel)
    (endpoint_category : String) (behavior : Option TenantBehavior) : ℚ :=
  max (1/10) (min 2 (load_multipliers level * category_adjustments endpoint_category *
    tenant_behavior_multiplier behavior))

/-! ## Circuit breaker (advanced_throttling.py lines 207-244, 518-530) -/

/-- One circuit_breaker:{endpoint} Redis hash.  Fields absent from the hash
read back as 0 through the dict.get defaults in the source. -/
structure CircuitEntry where
  state : String
  open_time : ℚ
  error_rate : ℚ
deriving DecidableEq, Repr

/-- Embedding of _should_apply_circuit_breaker (lines 207-244) for a reachable
Redis.  Inputs: the configured threshold and open duration, the current time,
the stored hash (none when the key is absent), and the system error rate that
get_system_metrics would report.  Output: whether the request is blocked,
paired with the hash after the call. -/
def should_apply_circuit_breaker (threshold duration now : ℚ)
    (entry : Option CircuitEntry) (error_rate : ℚ) : Bool × Option CircuitEntry :=
  match entry with
  | some e =>
    if e.state = "open" then
      if now - e.open_time > duration then
        (false, some { e with state := "half_open" })
      else
        (true, some e)
    else if e.state = "half_open" then
      (false, some e)
    else
      if error_rate > threshold then
        (true, some { state := "open", open_time := now, error_rate := error_rate })
      else
        (false, some e)
  | none =>
    if error_rate > threshold then
      (true, some { state := "open", open_time := now, error_rate := error_rate })
    else
      (false, none)

/-- Embedding of reset_circuit_breaker (lines 518-530) with Redis reachable:
hset of the single field state to "closed" (creating the hash when absent,
whose other fields then read back as 0). -/
def reset_circuit_breaker (entry : Option CircuitEntry) : Option CircuitEntry :=
  match entry with
  | some e => some { e with state := "closed" }
  | none => some { state := "closed", open_time := 0, error_rate := 0 }

/-- The state string a stored hash presents; an absent key behaves as closed
(the fall-through to the open-circuit check). -/
def circuitStateOf : Option CircuitEntry → String
  | none => "closed"
  | some e => e.state

/-- Strings other than "open" and "half_open" take the closed branch of the
source, so normalize them for the transition statement. -/
def normCircuitState (s : String) : String :=
  if s = "open" then "open" else if s = "half_open" then "half_open" else "closed"

/-! ## Enterprise rate limiter (rate_limiting_middleware.py) -/

/-- Embedding of the RateLimitConfig dataclass (lines 26-38). -/
structure RateLimitConfig where
  requests_per_minute : ℕ
  requests_per_hour : ℕ
  requests_per_day : ℕ
  burst_capacity : ℕ
  concurrent_requests : ℕ
  expensive_endpoints_rpm : ℕ
  standard_endpoints_rpm : ℕ
  auth_endpoints_rpm : ℕ
deriving DecidableEq, Repr

/-- The SUBSCRIPTION_LIMITS table (lines 41-82), as an association list in
source order. -/
def SUBSCRIPTION_LIMITS : List (String × RateLimitConfig) :=
  [("starter", ⟨100, 3000, 50000, 20, 10, 10, 60, 20⟩),
   ("professional", ⟨500, 15000, 300000, 100, 50, 50, 300, 100⟩),
   ("enterprise", ⟨2000, 60000, 1200000, 500, 200, 200, 1200, 400⟩),
   ("system_admin", ⟨10000, 300000, 5000000, 2000, 1000, 1000, 6000, 2000⟩)]

/-- Embedding of _get_rate_limit_config (lines 167-169): dict.get with the
starter plan as default. -/
def get_rate_limit_config (subscription_plan : String) : RateLimitConfig :=
  match (SUBSCRIPTION_LIMITS.find? (fun p => p.1 = subscription_plan)) with
  | some p => p.2
  | none => ⟨100, 3000, 50000, 20, 10, 10, 60, 20⟩

/-- The ENDPOINT_CATEGORIES table (lines 85-110) in dict insertion order. -/
def ENDPOINT_CATEGORIES : List (String × List String) :=
  [("expensive",
    ["/api/ai-tutor/generate", "/api/ai-tutor/analyze", "/api/analytics/report",
     "/api/analytics/export", "/api/recommendations/generate", "/api/admin/backup",
     "/api/monitoring/export"]),
   ("auth",
    ["/api/auth/login", "/api/auth/register", "/api/auth/refresh",
     "/api/auth/reset-password", "/api/auth/verify-email"]),
   ("standard",
    ["/api/courses", "/api/progress", "/api/content", "/api/users/profile",
     "/api/admin/users", "/api/admin/tenants"])]

/-- Embedding of _get_endpoint_category (lines 160-165): first category one of
whose entries the endpoint starts with, defaulting to standard.  The Python
startswith test is modelled on the underlying character lists so that
concrete instances evaluate inside the kernel. -/
def get_endpoint_category (endpoint : String) : String :=
  match (ENDPOINT_CATEGORIES.find?
      (fun c => c.2.any (fun ep => ep.data.isPrefixOf endpoint.data))) with
  | some c => c.1
  | none => "standard"

/-- The per-category rpm ceiling selection of check_rate_limit (lines 302-308). -/
def rpm_limit_for (config : RateLimitConfig) (endpoint_category : String) : ℕ :=
  if endpoint_category = "expensive" then config.expensive_endpoints_rpm
  else if endpoint_category = "auth" then config.auth_endpoints_rpm
  else config.standard_endpoints_rpm

/-- One burst_bucket:{client} Redis hash (lines 221-261): a token count and the
time of the last refill. -/
structure BurstBucket where
  tokens : ℤ
  last_refill : ℚ
deriving DecidableEq, Repr

/-- Python int() truncates toward zero; Lean Int division does the same. -/
def ratTruncate (q : ℚ) : ℤ :=
  q.num / (q.den : ℤ)

/-- Embedding of _get_burst_tokens (lines 221-261) with Redis reachable: an
absent bucket is initialized full; otherwise tokens accrue at
requests_per_minute / 60 per second since last_refill, truncated, capped at
the burst capacity, and the bucket is rewritten.  Returns the token count
reported together with the updated bucket. -/
def get_burst_tokens (config : RateLimitConfig) (now : ℚ)
    (bucket : Option BurstBucket) : ℤ × Option BurstBucket :=
  match bucket with
  | none =>
    ((config.burst_capacity : ℤ), some ⟨(config.burst_capacity : ℤ), now⟩)
  | some b =>
    let tokens_to_add : ℤ := ratTruncate ((now - b.last_refill) * ((config.requests_per_minute : ℚ) / 60))
    let tokens : ℤ := min (config.burst_capacity : ℤ) (b.tokens + tokens_to_add)
    (tokens, some ⟨tokens, now⟩)

/-- Embedding of _consume_burst_token (lines 263-277) with Redis reachable: a
token is decremented only when the stored count is positive (an absent hash
or field reads as falsy and consumes nothing). -/
def consume_burst_token (bucket : Option BurstBucket) : Bool × Option BurstBucket :=
  match bucket with
  | none => (false, none)
  | some b =>
    if b.tokens > 0 then (true, some ⟨b.tokens - 1, b.last_refill⟩)
    else (false, some b)

/-- The Redis counters touched by one check_rate_limit call for a fixed
client, endpoint and time window: the three window counters (before
increment) and the burst bucket. -/
structure RLState where
  minuteCount : ℕ
  hourCount : ℕ
  dayCount : ℕ
  bucket : Option BurstBucket
deriving DecidableEq, Repr

/-- The outcome of one check_rate_limit call (lines 279-379): the allow flag,
which window was exceeded, and the header payloads that depend on the counts. -/
structure RLResult where
  allowed : Bool
  limit_exceeded : Option String
  remaining_minute : ℕ
  remaining_hour : ℕ
  remaining_day : ℕ
  burst_tokens : ℤ
deriving DecidableEq, Repr

/-- Embedding of EnterpriseRateLimiter.check_rate_limit (lines 279-379) with
Redis reachable, for a fixed client within fixed minute/hour/day windows.
The three counters are incremented, the burst bucket refilled, then the
minute ceiling is checked with burst rescue, and the hour and day ceilings
are checked unconditionally afterwards, overriding the allow flag.
Remaining counts use max 0 (limit - count), which is ℕ subtraction. -/
def check_rate_limit (subscription_plan : String) (endpoint : String) (now : ℚ)
    (s : RLState) : RLResult × RLState :=
  let config := get_rate_limit_config subscription_plan
  let endpoint_category := get_endpoint_category endpoint
  let rpm_limit := rpm_limit_for config endpoint_category
  let minute_count := s.minuteCount + 1
  let hour_count := s.hourCount + 1
  let day_count := s.dayCount + 1
  let bt := get_burst_tokens config now s.bucket
  let burst_tokens := bt.1
  let afterMinute :=
    if minute_count > rpm_limit then
      if burst_tokens > 0 then
        ((true, (none : Option String)), (consume_burst_token bt.2).2)
      else
        ((false, some "minute"), bt.2)
    else
      ((true, none), bt.2)
  let afterHour :=
    if hour_count > config.requests_per_hour then (false, some "hour")
    else afterMinute.1
  let afterDay :=
    if day_count > config.requests_per_day then (false, some "day")
    else afterHour
  (⟨afterDay.1, afterDay.2, rpm_limit - minute_count,
    config.requests_per_hour - hour_count, config.requests_per_day - day_count,
    burst_tokens⟩,
   ⟨minute_count, hour_count, day_count, afterMinute.2⟩)

/-! ### In-memory fallback path (Redis unavailable) -/

/-- One memory_store entry of _fallback_increment (lines 204-219): a count and
the creation timestamp. -/
structure MemEntry where
  count : ℕ
  timestamp : ℚ
deriving DecidableEq, Repr

/-- Embedding of _fallback_increment (lines 204-219) for one key: entries whose
timestamp is not within the last day are dropped, a missing entry starts at
zero with the current timestamp, and the count is incremented. -/
def fallback_increment (now : ℚ) (entry : Option MemEntry) : ℕ × MemEntry :=
  let kept := match entry with
    | some e => if e.timestamp > now - 86400 then some e else none
    | none => none
  match kept with
  | some e => (e.count + 1, ⟨e.count + 1, e.timestamp⟩)
  | none => (1, ⟨1, now⟩)

/-- The in-memory counters for a fixed client and fixed windows when Redis is
down: one memory_store entry per window key. -/
structure MemState where
  minuteEntry : Option MemEntry
  hourEntry : Option MemEntry
  dayEntry : Option MemEntry
deriving DecidableEq, Repr

/-- Embedding of EnterpriseRateLimiter.check_rate_limit with self.redis_client
None: counters go through _fallback_increment, _get_burst_tokens returns
burst_capacity // 2, and _consume_burst_token returns True without touching
any state. -/
def check_rate_limit_noRedis (subscription_plan : String) (endpoint : String)
    (now : ℚ) (s : MemState) : RLResult × MemState :=
  let config := get_rate_limit_config subscription_plan
  let endpoint_category := get_endpoint_category endpoint
  let rpm_limit := rpm_limit_for config endpoint_category
  let m := fallback_increment now s.minuteEntry
  let h := fallback_increment now s.hourEntry
  let d := fallback_increment now s.dayEntry
  let burst_tokens : ℤ := (config.burst_capacity / 2 : ℕ)
  let afterMinute :=
    if m.1 > rpm_limit then
      if burst_tokens > 0 then ((true, (none : Option String)))
      else ((false, some "minute"))
    else ((true, none))
  let afterHour :=
    if h.1 > config.requests_per_hour then (false, some "hour")
    else afterMinute
  let afterDay :=
    if d.1 > config.requests_per_day then (false, some "day")
    else afterHour
  (⟨afterDay.1, afterDay.2, rpm_limit - m.1,
    config.requests_per_hour - h.1, config.requests_per_day - d.1,
    burst_tokens⟩,
   ⟨some m.2, some h.2, some d.2⟩)

/-- Embedding of auth_middleware.RateLimiter.check_rate_limit
(auth_middleware.py lines 565-585) when self.redis_client is falsy: the
method returns (True, limit) at once. -/
def simple_check_rate_limit_noRedis (limit : ℕ) : Bool × ℕ :=
  (true, limit)

/-! ## Multi-tenant authentication (auth_middleware.py) -/

/-- Embedding of the TenantConfig model (auth_middleware.py lines 33-44).
The rate_limits and security_settings dictionaries are carried nowhere by the
verified paths, so they are not represented. -/
structure TenantConfig where
  tenant_id : String
  name : String
  domain : String
  subscription_plan : String
  max_users : ℕ
  features : List String
  created_at : String
  is_active : Bool
deriving DecidableEq, Repr

/-- One row of the institutions table as read by get_tenant_config
(lines 136-141).  features is the parsed settings.features key when present;
is_active is NULL-able in the schema. -/
structure InstitutionRow where
  name : String
  domain : String
  subscription_plan : String
  max_students : ℕ
  features : Option (List String)
  created_at : String
  is_active : Option Bool
deriving DecidableEq, Repr

/-- One row of the users table as read by the auth queries. -/
structure UserRow where
  email : String
  password_hash : String
  first_name : String
  last_name : String
  role : String
  institution_id : Option String
  is_active : Bool
deriving DecidableEq, Repr

/-- One auth:session:{sid} Redis value (lines 247-252), holding unix times. -/
structure SessionData where
  user_id : String
  tenant_id : String
  created_at : ℤ
  last_activity : ℤ
deriving DecidableEq, Repr

/-- The JWT claims model (lines 46-56). -/
structure UserClaims where
  user_id : String
  email : String
  role : String
  tenant_id : String
  tenant_name : String
  permissions : List String
  session_id : String
  exp : ℤ
  iat : ℤ
deriving DecidableEq, Repr

/-- The result model of authenticate_user (lines 58-65); the refresh token is
kept abstract as its payload fields. -/
structure RefreshPayload where
  user_id : String
  tenant_id : String
  token_type : String
  exp : ℤ
deriving DecidableEq, Repr

/-- FastAPI HTTPException as raised by the middleware: a status code and a
detail string. -/
structure HTTPError where
  status_code : ℕ
  detail : String
deriving DecidableEq, Repr

/-- The mutable backing stores the auth service touches: the sqlite tables and
the Redis session keys, plus the in-process tenant cache (self.tenant_cache,
line 101).  The permission cache (line 102) only ever stores the value
base_permissions recomputes, so it is value-irrelevant and not represented. -/
structure AuthState where
  institutions : List (String × InstitutionRow)
  users : List (String × UserRow)
  tenant_cache : List (String × TenantConfig)
  sessions : List (String × SessionData)
deriving DecidableEq, Repr

/-- Service configuration (lines 85-98): the JWT secret and the access token
lifetime in minutes. -/
structure AuthServiceConfig where
  jwt_secret : String
  access_token_expire_minutes : ℕ
deriving DecidableEq, Repr

/-- A JWT as produced by jwt.encode: the claims payload signed under a secret.
Modelled from the PyJWT contract: decode under the same secret returns the
payload, decode under another secret raises InvalidTokenError, and an exp in
the past raises ExpiredSignatureError. -/
structure Jwt where
  payload : UserClaims
  secret : String
deriving DecidableEq, Repr

inductive JwtError
  | expiredSignature
  | invalidToken
deriving DecidableEq, Repr

/-- Modelled from the PyJWT contract (see Jwt): signature verification then
exp validation against the current unix time. -/
def jwt_decode (now : ℤ) (secret : String) (t : Jwt) : Except JwtError UserClaims :=
  if t.secret ≠ secret then .error .invalidToken
  else if t.payload.exp ≤ now then .error .expiredSignature
  else .ok t.payload

/-- Builds the TenantConfig from an institutions row exactly as
get_tenant_config does (lines 146-167): missing settings.features falls back
to the default list, and the SQL expression
(is_active IS NULL OR is_active = 1) makes a NULL column read as active. -/
def configOfRow (tenant_id : String) (row : InstitutionRow) : TenantConfig :=
  { tenant_id := tenant_id
    name := row.name
    domain := row.domain
    subscription_plan := row.subscription_plan
    max_users := row.max_students
    features := row.features.getD ["basic_learning", "progress_tracking"]
    created_at := row.created_at
    is_active := row.is_active.getD true }

/-- Embedding of get_tenant_config (lines 124-176): the in-process cache is
consulted first and a database hit is cached before returning.  A missing row
returns none. -/
def get_tenant_config (tenant_id : String) (st : AuthState) :
    Option TenantConfig × AuthState :=
  match st.tenant_cache.find? (fun p => p.1 = tenant_id) with
  | some p => (some p.2, st)
  | none =>
    match st.institutions.find? (fun p => p.1 = tenant_id) with
    | some p =>
      let config := configOfRow p.1 p.2
      (some config, { st with tenant_cache := (tenant_id, config) :: st.tenant_cache })
    | none => (none, st)

/-- Embedding of get_tenant_by_domain (lines 178-198): the SQL filters on the
domain and on (is_active IS NULL OR is_active = 1), then the hit is resolved
through get_tenant_config. -/
def get_tenant_by_domain (domain : String) (st : AuthState) :
    Option TenantConfig × AuthState :=
  match st.institutions.find?
      (fun p => p.2.domain = domain ∧ p.2.is_active.getD true) with
  | some p => get_tenant_config p.1 st
  | none => (none, st)

/-- Embedding of _get_user_info (lines 400-429): id, institution and
is_active = 1 must all match. -/
def get_user_info (user_id tenant_id : String) (st : AuthState) : Option UserRow :=
  (st.users.find?
      (fun p => p.1 = user_id ∧ p.2.institution_id = some tenant_id ∧ p.2.is_active)).map
    Prod.snd

/-- Embedding of the base_permissions table of _get_user_permissions
(lines 431-467); unknown roles fall back to the course:read singleton.  The
permission cache stores exactly this value, so the cached and uncached reads
agree. -/
def base_permissions (role : String) : List String :=
  if role = "student" then
    ["course:read", "course:enroll", "progress:read",
     "assessment:take", "content:view", "profile:edit"]
  else if role = "instructor" then
    ["course:read", "course:create", "course:edit", "course:delete",
     "content:create", "content:edit", "assessment:create",
     "student:view", "analytics:view"]
  else if role = "admin" then
    ["course:*", "user:*", "content:*", "assessment:*",
     "analytics:*", "system:configure"]
  else if role = "institution_admin" then
    ["tenant:manage", "user:manage", "course:manage",
     "analytics:full", "billing:manage", "security:manage"]
  else
    ["course:read"]

/-- Embedding of create_access_token (lines 204-259) with Redis reachable.
now is the unix time and session_id the fresh uuid4 value, both inputs of the
model.  Returns the encoded token, the claims, and the state after the
session write and any tenant cache fill. -/
def create_access_token (svc : AuthServiceConfig) (now : ℤ) (session_id : String)
    (user_id tenant_id : String) (st : AuthState) :
    Except HTTPError ((Jwt × UserClaims) × AuthState) :=
  match get_user_info user_id tenant_id st with
  | none => .error ⟨404, "User not found"⟩
  | some info =>
    let tc := get_tenant_config tenant_id st
    match tc.1 with
    | none => .error ⟨404, "Invalid or inactive tenant"⟩
    | some tenant_config =>
      if tenant_config.is_active = false then
        .error ⟨404, "Invalid or inactive tenant"⟩
      else
        let permissions := base_permissions info.role
        let exp := now + 60 * (svc.access_token_expire_minutes : ℤ)
        let claims : UserClaims :=
          { user_id := user_id
            email := info.email
            role := info.role
            tenant_id := tenant_id
            tenant_name := tenant_config.name
            permissions := permissions
            session_id := session_id
            exp := exp
            iat := now }
        let token : Jwt := ⟨claims, svc.jwt_secret⟩
        let st2 := { tc.2 with
          sessions := (session_id, ⟨user_id, tenant_id, now, now⟩) :: tc.2.sessions }
        .ok ((token, claims), st2)

/-- The failure modes raised inside verify_token before the except clauses
rewrite them. -/
inductive VerifyFailure
  | tokenExpired
  | invalidToken
  | sessionExpired
  | tenantInactive
deriving DecidableEq, Repr

/-- Embedding of the body of verify_token (lines 261-290) with Redis
reachable: decode, session lookup and last_activity touch, then the tenant
active re-check through get_tenant_config. -/
def verify_token_inner (svc : AuthServiceConfig) (now : ℤ) (token : Jwt)
    (st : AuthState) : Except VerifyFailure UserClaims × AuthState :=
  match jwt_decode now svc.jwt_secret token with
  | .error .expiredSignature => (.error .tokenExpired, st)
  | .error .invalidToken => (.error .invalidToken, st)
  | .ok claims =>
    match st.sessions.find? (fun p => p.1 = claims.session_id) with
    | none => (.error .sessionExpired, st)
    | some _ =>
      let st1 := { st with
        sessions := st.sessions.map
          (fun q => if q.1 = claims.session_id then
            (q.1, { q.2 with last_activity := now }) else q) }
      let tc := get_tenant_config claims.tenant_id st1
      match tc.1 with
      | none => (.error .tenantInactive, tc.2)
      | some tenant_config =>
        if tenant_config.is_active = false then (.error .tenantInactive, tc.2)
        else (.ok claims, tc.2)

/-- Embedding of verify_token (lines 261-298) including its except clauses:
jwt.ExpiredSignatureError and jwt.InvalidTokenError surface their own
details, while the HTTPExceptions raised for a dead session or an inactive
tenant are caught by the trailing generic handler and re-raised as
401 Authentication failed. -/
def verify_token (svc : AuthServiceConfig) (now : ℤ) (token : Jwt)
    (st : AuthState) : Except HTTPError UserClaims × AuthState :=
  match verify_token_inner svc now token st with
  | (.error .tokenExpired, st1) => (.error ⟨401, "Token expired"⟩, st1)
  | (.error .invalidToken, st1) => (.error ⟨401, "Invalid token"⟩, st1)
  | (.error .sessionExpired, st1) => (.error ⟨401, "Authentication failed"⟩, st1)
  | (.error .tenantInactive, st1) => (.error ⟨401, "Authentication failed"⟩, st1)
  | (.ok claims, st1) => (.ok claims, st1)

/-- The result model of authenticate_user (lines 58-65). -/
structure AuthenticationResult where
  success : Bool
  user_claims : Option UserClaims
  token : Option Jwt
  refresh_token : Option (RefreshPayload × String)
  error_message : Option String
deriving DecidableEq, Repr

def authFailure (msg : String) : AuthenticationResult :=
  ⟨false, none, none, none, some msg⟩

/-- The user query of authenticate_user (lines 323-334): email and
is_active = 1, plus the institution when a tenant was resolved from the
domain; fetchone takes the first match. -/
def find_login_user (email : String) (tenant : Option TenantConfig)
    (st : AuthState) : Option (String × UserRow) :=
  match tenant with
  | some cfg =>
    st.users.find?
      (fun p => p.2.email = email ∧ p.2.institution_id = some cfg.tenant_id ∧ p.2.is_active)
  | none =>
    st.users.find? (fun p => p.2.email = email ∧ p.2.is_active)

/-- Embedding of authenticate_user (lines 304-394).  sha256 hashing is an
abstract function argument; now and session_id stand for the clock and the
fresh uuid.  Failure messages are exactly the literals of the source; any
exception escaping create_access_token is converted by the outer handler
into the Authentication system error result. -/
def authenticate_user (svc : AuthServiceConfig) (hash : String → String)
    (now : ℤ) (session_id : String) (email password : String)
    (tenant_domain : Option String) (st : AuthState) :
    AuthenticationResult × AuthState :=
  let td := match tenant_domain with
    | some d =>
      match get_tenant_by_domain d st with
      | (none, st1) => (none, some (authFailure "Invalid tenant domain"), st1)
      | (some cfg, st1) => (some cfg, none, st1)
    | none => (none, none, st)
  match td with
  | (_, some failure, st1) => (failure, st1)
  | (tenant0, none, st1) =>
    match find_login_user email tenant0 st1 with
    | none => (authFailure "Invalid credentials", st1)
    | some (uid, user) =>
      if hash password ≠ user.password_hash then
        (authFailure "Invalid credentials", st1)
      else
        let tres : Option TenantConfig × AuthState :=
          match tenant0, user.institution_id with
          | none, some iid => get_tenant_config iid st1
          | t, _ => (t, st1)
        match tres with
        | (none, st2) => (authFailure "No valid tenant found", st2)
        | (some cfg, st2) =>
          match create_access_token svc now session_id uid cfg.tenant_id st2 with
          | .error _ => (authFailure "Authentication system error", st2)
          | .ok ((token, claims), st3) =>
            let refresh : RefreshPayload × String :=
              (⟨uid, cfg.tenant_id, "refresh", now + 60 * 60 * 24 * 30⟩, svc.jwt_secret)
            (⟨true, some claims, some token, some refresh, none⟩, st3)

/-- Embedding of the require_permission dependency (lines 533-542): the exact
permission string or a bare star must be a member of the claims permission
list, otherwise 403. -/
def require_permission (permission : String) (current_user : UserClaims) :
    Except HTTPError UserClaims :=
  if permission ∉ current_user.permissions ∧ "*" ∉ current_user.permissions then
    .error ⟨403, "Permission required: " ++ permission⟩
  else
    .ok current_user

/-- The open_time a stored hash presents (absent key or field reads as 0). -/
def circuitOpenTimeOf : Option CircuitEntry → ℚ
  | none => 0
  | some e => e.open_time

/-! ## Theorems -/

/-- C6: for every combination of system load level, endpoint category and
tenant behavior data, the adaptive multiplier computed by
_calculate_adaptive_multiplier lies within [0.1, 2.0] inclusive. -/
theorem c6_adaptive_multiplier_bounds :
    ∀ (level : SystemLoadLevel) (endpoint_category : String)
      (behavior : Option TenantBehavior),
      1/10 ≤ calculate_adaptive_multiplier level endpoint_category behavior ∧
      calculate_adaptive_multiplier level endpoint_category behavior ≤ 2 := by
  intro level endpoint_category behavior
  unfold calculate_adaptive_multiplier
  refine ⟨le_max_left _ _, max_le (by norm_num) (min_le_left _ _)⟩

/-- C8 counterexample: at the exact boundary cpu = 30 (mem = 0) the source
classifies the load as low, while the claimed strict-threshold cascade makes
it medium, so the claim fails at its stated boundary values. -/
theorem c8_boundary_counterexample :
    SystemMetrics.get_load_level ⟨30, 0, 0, 0, 0, 0, 0, 0⟩ = SystemLoadLevel.low ∧
    specLoadLevel 30 0 = SystemLoadLevel.medium := by
  constructor <;> decide

/-- C8 amended: the load level follows the threshold cascade with non-strict
comparisons, the boundary values cpu = 30, 70, 90 and mem = 50, 80, 95
falling into the lower band: low when cpu ≤ 30 and mem ≤ 50; medium when
cpu ≤ 70 and mem ≤ 80 (and not low); high when cpu ≤ 90 and mem ≤ 95 (and
not medium); critical otherwise. -/
theorem c8_load_level_amended :
    ∀ m : SystemMetrics,
      m.get_load_level = amendedLoadLevel m.cpu_percent m.memory_percent := by
  intro m
  rcases m with ⟨cpu, mem, d1, d2, d3, d4, d5, d6⟩
  unfold SystemMetrics.get_load_level amendedLoadLevel
  dsimp only
  by_cases h3 : cpu > 90 ∨ mem > 95
  · have h2 : cpu > 70 ∨ mem > 80 := by
      rcases h3 with h | h
      · exact Or.inl (by linarith)
      · exact Or.inr (by linarith)
    have h1 : cpu > 30 ∨ mem > 50 := by
      rcases h2 with h | h
      · exact Or.inl (by linarith)
      · exact Or.inr (by linarith)
    have n1 : ¬(cpu ≤ 30 ∧ mem ≤ 50) := by
      rintro ⟨a, b⟩; rcases h1 with h | h <;> linarith
    have n2 : ¬(cpu ≤ 70 ∧ mem ≤ 80) := by
      rintro ⟨a, b⟩; rcases h2 with h | h <;> linarith
    have n3 : ¬(cpu ≤ 90 ∧ mem ≤ 95) := by
      rintro ⟨a, b⟩; rcases h3 with h | h <;> linarith
    rw [if_pos h3, if_neg n1, if_neg n2, if_neg n3]
  · rw [if_neg h3]
    push_neg at h3
    by_cases h2 : cpu > 70 ∨ mem > 80
    · have h1 : cpu > 30 ∨ mem > 50 := by
        rcases h2 with h | h
        · exact Or.inl (by linarith)
        · exact Or.inr (by linarith)
      have n1 : ¬(cpu ≤ 30 ∧ mem ≤ 50) := by
        rintro ⟨a, b⟩; rcases h1 with h | h <;> linarith
      have n2 : ¬(cpu ≤ 70 ∧ mem ≤ 80) := by
        rintro ⟨a, b⟩; rcases h2 with h | h <;> linarith
      rw [if_pos h2, if_neg n1, if_neg n2, if_pos h3]
    · rw [if_neg h2]
      push_neg at h2
      by_cases h1 : cpu > 30 ∨ mem > 50
      · have n1 : ¬(cpu ≤ 30 ∧ mem ≤ 50) := by
          rintro ⟨a, b⟩; rcases h1 with h | h <;> linarith
        rw [if_pos h1, if_neg n1, if_pos h2]
      · rw [if_neg h1]
        push_neg at h1
        rw [if_pos h1]

/-- C2 counterexample: a half_open breaker whose probe traffic still sees an
error rate (1.0) far above the threshold (0.15) is left in half_open and the
request is allowed; since the state is unchanged, every further probe is
also allowed — contradicting both the claimed half_open → open transition
and the claimed single-probe allowance. -/
theorem c2_half_open_counterexample :
    should_apply_circuit_breaker (15/100) 60 1000 (some ⟨"half_open", 0, 1⟩) 1 =
      (false, some ⟨"half_open", 0, 1⟩) := by
  decide

/-- C2 amended: the permitted transitions of _should_apply_circuit_breaker
are exactly: closed → open when the error rate exceeds the threshold (the
call blocks and stamps open_time := now), closed stays closed otherwise
(allowed), open → half_open when open_time is older than the cooldown (that
call is allowed through), open stays open within the cooldown (blocked), and
half_open always stays half_open with the request allowed — every probe
passes, and half_open returns to closed only through the manual
reset_circuit_breaker, which always writes state closed. -/
theorem c2_circuit_transitions_amended :
    (∀ (threshold duration now error_rate : ℚ) (entry : Option CircuitEntry),
      (normCircuitState (circuitStateOf entry) = "closed" ∧ error_rate > threshold ∧
        should_apply_circuit_breaker threshold duration now entry error_rate =
          (true, some ⟨"open", now, error_rate⟩)) ∨
      (normCircuitState (circuitStateOf entry) = "closed" ∧ ¬error_rate > threshold ∧
        should_apply_circuit_breaker threshold duration now entry error_rate =
          (false, entry)) ∨
      (circuitStateOf entry = "open" ∧ now - circuitOpenTimeOf entry > duration ∧
        (should_apply_circuit_breaker threshold duration now entry error_rate).1 = false ∧
        circuitStateOf (should_apply_circuit_breaker threshold duration now entry error_rate).2 =
          "half_open") ∨
      (circuitStateOf entry = "open" ∧ ¬(now - circuitOpenTimeOf entry > duration) ∧
        should_apply_circuit_breaker threshold duration now entry error_rate =
          (true, entry)) ∨
      (circuitStateOf entry = "half_open" ∧
        should_apply_circuit_breaker threshold duration now entry error_rate =
          (false, entry))) ∧
    (∀ entry, circuitStateOf (reset_circuit_breaker entry) = "closed") := by
  constructor
  · intro threshold duration now error_rate entry
    match entry with
    | none =>
      by_cases he : error_rate > threshold
      · exact Or.inl ⟨rfl, he, by simp [should_apply_circuit_breaker, if_pos he]⟩
      · refine Or.inr (Or.inl ⟨rfl, he, ?_⟩)
        simp [should_apply_circuit_breaker, if_neg he]
    | some e =>
      by_cases ho : e.state = "open"
      · by_cases ht : now - e.open_time > duration
        · refine Or.inr (Or.inr (Or.inl ⟨ho, ht, ?_, ?_⟩)) <;>
            simp [should_apply_circuit_breaker, circuitStateOf, circuitOpenTimeOf,
              if_pos ho, if_pos ht]
        · refine Or.inr (Or.inr (Or.inr (Or.inl ⟨ho, ht, ?_⟩)))
          simp [should_apply_circuit_breaker, circuitStateOf, circuitOpenTimeOf,
            if_pos ho, if_neg ht]
      · by_cases hh : e.state = "half_open"
        · refine Or.inr (Or.inr (Or.inr (Or.inr ⟨hh, ?_⟩)))
          simp [should_apply_circuit_breaker, if_neg ho, if_pos hh]
        · by_cases he : error_rate > threshold
          · refine Or.inl ⟨?_, he, ?_⟩
            · simp [normCircuitState, circuitStateOf, if_neg ho, if_neg hh]
            · simp [should_apply_circuit_breaker, if_neg ho, if_neg hh, if_pos he]
          · refine Or.inr (Or.inl ⟨?_, he, ?_⟩)
            · simp [normCircuitState, circuitStateOf, if_neg ho, if_neg hh]
            · simp [should_apply_circuit_breaker, if_neg ho, if_neg hh, if_neg he]
  · intro entry
    match entry with
    | none => rfl
    | some e => rfl

/-- C10: the permission gate is exact string membership plus the bare star
only: require_permission p admits a user iff p itself or the literal star is
in the permission list; in particular the admin role holds course:* but not
course:read and no bare star, so require_permission course:read rejects an
admin with a 403 naming the permission. -/
theorem c10_require_permission_exact :
    (∀ (p : String) (c : UserClaims),
      require_permission p c = .ok c ↔ (p ∈ c.permissions ∨ "*" ∈ c.permissions)) ∧
    ("course:*" ∈ base_permissions "admin" ∧
     "course:read" ∉ base_permissions "admin" ∧
     "*" ∉ base_permissions "admin" ∧
     require_permission "course:read"
       ⟨"u1", "admin@kit.edu", "admin", "t1", "KitMedia", base_permissions "admin",
        "s1", 3600, 0⟩ =
       .error ⟨403, "Permission required: course:read"⟩) := by
  constructor
  · intro p c
    unfold require_permission
    by_cases h : p ∈ c.permissions ∨ "*" ∈ c.permissions
    · have hc : ¬(p ∉ c.permissions ∧ "*" ∉ c.permissions) := by tauto
      rw [if_neg hc]
      simp [h]
    · have hc : p ∉ c.permissions ∧ "*" ∉ c.permissions := by tauto
      rw [if_pos hc]
      constructor
      · intro heq
        exact absurd heq (by simp)
      · intro hh
        exact absurd hh h
  · refine ⟨by decide, by decide, by decide, by rfl⟩

/-! ### Repeated calls within one frozen minute window (for the burst claim) -/

/-- Fresh windows and no bucket yet: the state before the first request. -/
def initRLState : RLState := ⟨0, 0, 0, none⟩

/-- The state left behind by one check_rate_limit call. -/
def rlStep (plan endpoint : String) (now : ℚ) (s : RLState) : RLState :=
  (check_rate_limit plan endpoint now s).2

/-- The state after k calls at a frozen clock, starting fresh. -/
def rlIter (plan endpoint : String) (now : ℚ) : ℕ → RLState
  | 0 => initRLState
  | n + 1 => rlStep plan endpoint now (rlIter plan endpoint now n)

/-- The result of the k-th call (k counted from 1) at a frozen clock. -/
def rlCall (plan endpoint : String) (now : ℚ) (k : ℕ) : RLResult :=
  (check_rate_limit plan endpoint now (rlIter plan endpoint now (k - 1))).1

/-- The per-category minute ceiling the source selects for a plan and
endpoint. -/
def planC (plan endpoint : String) : ℕ :=
  rpm_limit_for (get_rate_limit_config plan) (get_endpoint_category endpoint)

/-- The burst capacity of a plan. -/
def planB (plan : String) : ℕ :=
  (get_rate_limit_config plan).burst_capacity

/-- Closed form of the token count after k calls: full until the minute
ceiling C is passed, then one token consumed per call until empty. -/
def tokAfter (C B k : ℕ) : ℤ :=
  (B : ℤ) - (min k (C + B) : ℕ) + (min k C : ℕ)

/-- Closed form of the bucket after k calls at frozen clock now. -/
def bucketAfter (C B : ℕ) (now : ℚ) (k : ℕ) : Option BurstBucket :=
  if k = 0 then none else some ⟨tokAfter C B k, now⟩

theorem ratTruncate_zero : ratTruncate 0 = 0 := by decide

theorem tokAfter_le (C B k : ℕ) : tokAfter C B k ≤ (B : ℤ) := by
  unfold tokAfter
  omega

theorem tokAfter_nonneg (C B k : ℕ) : 0 ≤ tokAfter C B k := by
  unfold tokAfter
  omega

/-- Refilling at the very instant of the last refill adds nothing: the
stored count comes back (capped, which is a no-op for counts at most the
capacity). -/
theorem get_burst_tokens_frozen (config : RateLimitConfig) (now : ℚ) (t : ℤ)
    (ht : t ≤ (config.burst_capacity : ℤ)) :
    get_burst_tokens config now (some ⟨t, now⟩) = (t, some ⟨t, now⟩) := by
  unfold get_burst_tokens
  simp only [sub_self, zero_mul, ratTruncate_zero, add_zero]
  rw [min_eq_right ht]

theorem rlStep_closed (plan endpoint : String) (now : ℚ) (k : ℕ) :
    rlStep plan endpoint now ⟨k, k, k, bucketAfter (planC plan endpoint) (planB plan) now k⟩ =
      ⟨k + 1, k + 1, k + 1, bucketAfter (planC plan endpoint) (planB plan) now (k + 1)⟩ := by
  have hle := tokAfter_le (planC plan endpoint) (planB plan) k
  have hnn := tokAfter_nonneg (planC plan endpoint) (planB plan) k
  unfold rlStep check_rate_limit
  dsimp only
  congr 1
  rw [show rpm_limit_for (get_rate_limit_config plan) (get_endpoint_category endpoint) =
    planC plan endpoint from rfl]
  rcases Nat.eq_zero_or_pos k with hk | hk
  · subst hk
    rw [show bucketAfter (planC plan endpoint) (planB plan) now 0 = none from rfl,
        show get_burst_tokens (get_rate_limit_config plan) now none =
          ((planB plan : ℤ), some ⟨(planB plan : ℤ), now⟩) from rfl]
    dsimp only
    split_ifs with h1 h2
    · simp only [consume_burst_token, if_pos h2]
      rw [show bucketAfter (planC plan endpoint) (planB plan) now (0 + 1) =
        some ⟨tokAfter (planC plan endpoint) (planB plan) (0 + 1), now⟩ from by
          simp [bucketAfter]]
      simp only [Option.some.injEq, BurstBucket.mk.injEq, and_true]
      simp only [tokAfter]
      omega
    · dsimp only
      rw [show bucketAfter (planC plan endpoint) (planB plan) now (0 + 1) =
        some ⟨tokAfter (planC plan endpoint) (planB plan) (0 + 1), now⟩ from by
          simp [bucketAfter]]
      simp only [Option.some.injEq, BurstBucket.mk.injEq, and_true]
      simp only [tokAfter]
      omega
    · dsimp only
      rw [show bucketAfter (planC plan endpoint) (planB plan) now (0 + 1) =
        some ⟨tokAfter (planC plan endpoint) (planB plan) (0 + 1), now⟩ from by
          simp [bucketAfter]]
      simp only [Option.some.injEq, BurstBucket.mk.injEq, and_true]
      simp only [tokAfter]
      omega
  · rw [show bucketAfter (planC plan endpoint) (planB plan) now k =
        some ⟨tokAfter (planC plan endpoint) (planB plan) k, now⟩ from by
      simp [bucketAfter]; omega]
    rw [get_burst_tokens_frozen (get_rate_limit_config plan) now
      (tokAfter (planC plan endpoint) (planB plan) k) (by exact hle)]
    dsimp only
    split_ifs with h1 h2
    · simp only [consume_burst_token, if_pos h2]
      rw [show bucketAfter (planC plan endpoint) (planB plan) now (k + 1) =
        some ⟨tokAfter (planC plan endpoint) (planB plan) (k + 1), now⟩ from by
          simp [bucketAfter]]
      simp only [Option.some.injEq, BurstBucket.mk.injEq, and_true]
      simp only [tokAfter] at h2 ⊢
      omega
    · dsimp only
      rw [show bucketAfter (planC plan endpoint) (planB plan) now (k + 1) =
        some ⟨tokAfter (planC plan endpoint) (planB plan) (k + 1), now⟩ from by
          simp [bucketAfter]]
      simp only [Option.some.injEq, BurstBucket.mk.injEq, and_true]
      simp only [tokAfter] at h2 hnn ⊢
      omega
    · dsimp only
      rw [show bucketAfter (planC plan endpoint) (planB plan) now (k + 1) =
        some ⟨tokAfter (planC plan endpoint) (planB plan) (k + 1), now⟩ from by
          simp [bucketAfter]]
      simp only [Option.some.injEq, BurstBucket.mk.injEq, and_true]
      simp only [tokAfter]
      omega

theorem rlIter_closed (plan endpoint : String) (now : ℚ) (k : ℕ) :
    rlIter plan endpoint now k =
      ⟨k, k, k, bucketAfter (planC plan endpoint) (planB plan) now k⟩ := by
  induction k with
  | zero => rfl
  | succ n ih => rw [rlIter, ih, rlStep_closed]

theorem rlCall_eval (plan endpoint : String) (now : ℚ) (j : ℕ)
    (hH : j + 1 ≤ (get_rate_limit_config plan).requests_per_hour)
    (hD : j + 1 ≤ (get_rate_limit_config plan).requests_per_day) :
    ((check_rate_limit plan endpoint now
        ⟨j, j, j, bucketAfter (planC plan endpoint) (planB plan) now j⟩).1.allowed = true ↔
      j + 1 ≤ planC plan endpoint + planB plan) ∧
    (j = planC plan endpoint + planB plan →
      (check_rate_limit plan endpoint now
        ⟨j, j, j, bucketAfter (planC plan endpoint) (planB plan) now j⟩).1.limit_exceeded =
        some "minute") := by
  have hle := tokAfter_le (planC plan endpoint) (planB plan) j
  have hnn := tokAfter_nonneg (planC plan endpoint) (planB plan) j
  unfold check_rate_limit
  dsimp only
  rw [show rpm_limit_for (get_rate_limit_config plan) (get_endpoint_category endpoint) =
    planC plan endpoint from rfl]
  have hDne : ¬(j + 1 > (get_rate_limit_config plan).requests_per_day) := by omega
  have hHne : ¬(j + 1 > (get_rate_limit_config plan).requests_per_hour) := by omega
  rw [if_neg hDne, if_neg hHne]
  rcases Nat.eq_zero_or_pos j with hj | hj
  · subst hj
    rw [show bucketAfter (planC plan endpoint) (planB plan) now 0 = none from rfl,
        show get_burst_tokens (get_rate_limit_config plan) now none =
          ((planB plan : ℤ), some ⟨(planB plan : ℤ), now⟩) from rfl]
    dsimp only
    split_ifs with h1 h2
    · refine ⟨?_, ?_⟩
      · constructor
        · intro _; omega
        · intro _; trivial
      · intro h0; exfalso; omega
    · refine ⟨?_, ?_⟩
      · constructor
        · intro hfalse; simp at hfalse
        · intro hcb; exfalso; omega
      · intro h0; rfl
    · refine ⟨?_, ?_⟩
      · constructor
        · intro _; omega
        · intro _; trivial
      · intro h0; exfalso; omega
  · rw [show bucketAfter (planC plan endpoint) (planB plan) now j =
        some ⟨tokAfter (planC plan endpoint) (planB plan) j, now⟩ from by
      simp [bucketAfter]; omega]
    rw [get_burst_tokens_frozen (get_rate_limit_config plan) now
      (tokAfter (planC plan endpoint) (planB plan) j) (by exact hle)]
    dsimp only
    split_ifs with h1 h2
    · refine ⟨?_, ?_⟩
      · constructor
        · intro _
          simp only [tokAfter] at h2
          omega
        · intro _; trivial
      · intro h0
        exfalso
        simp only [tokAfter] at h2
        omega
    · refine ⟨?_, ?_⟩
      · constructor
        · intro hfalse; simp at hfalse
        · intro hcb
          exfalso
          simp only [tokAfter] at h2 hnn
          omega
      · intro h0; rfl
    · refine ⟨?_, ?_⟩
      · constructor
        · intro _; omega
        · intro _; trivial
      · intro h0; exfalso; omega

/-- C3: for one client in one minute window with a frozen clock (no token
refill), starting from fresh counters and no bucket, with minute ceiling
C = planC and burst capacity B = planB and the hour and day ceilings out of
reach, exactly the first C + B calls to check_rate_limit are allowed and the
(C+B+1)-th is denied with limit_exceeded minute. -/
theorem c3_minute_burst_boundary (plan endpoint : String) (now : ℚ)
    (hH : planC plan endpoint + planB plan + 1 ≤
      (get_rate_limit_config plan).requests_per_hour)
    (hD : planC plan endpoint + planB plan + 1 ≤
      (get_rate_limit_config plan).requests_per_day) :
    (∀ k, 1 ≤ k → k ≤ planC plan endpoint + planB plan →
      (rlCall plan endpoint now k).allowed = true) ∧
    (rlCall plan endpoint now (planC plan endpoint + planB plan + 1)).allowed = false ∧
    (rlCall plan endpoint now (planC plan endpoint + planB plan + 1)).limit_exceeded =
      some "minute" := by
  refine ⟨?_, ?_, ?_⟩
  · intro k hk1 hk2
    unfold rlCall
    rw [rlIter_closed]
    rw [(rlCall_eval plan endpoint now (k - 1) (by omega) (by omega)).1]
    omega
  · unfold rlCall
    rw [rlIter_closed]
    have hne : ¬((check_rate_limit plan endpoint now
        ⟨planC plan endpoint + planB plan + 1 - 1, planC plan endpoint + planB plan + 1 - 1,
         planC plan endpoint + planB plan + 1 - 1,
         bucketAfter (planC plan endpoint) (planB plan) now
           (planC plan endpoint + planB plan + 1 - 1)⟩).1.allowed = true) := by
      rw [(rlCall_eval plan endpoint now (planC plan endpoint + planB plan + 1 - 1)
        (by omega) (by omega)).1]
      omega
    rw [Bool.not_eq_true] at hne
    exact hne
  · unfold rlCall
    rw [rlIter_closed]
    exact (rlCall_eval plan endpoint now (planC plan endpoint + planB plan + 1 - 1)
      (by omega) (by omega)).2 (by omega)

/-- Witness for C3 at the starter plan and a standard endpoint:
C = 60, B = 20, so calls up to 80 pass and call 81 is denied by the minute
window. -/
theorem c3_minute_burst_boundary_witness :
    (planC "starter" "/api/courses" + planB "starter" + 1 ≤
      (get_rate_limit_config "starter").requests_per_hour) ∧
    (planC "starter" "/api/courses" + planB "starter" + 1 ≤
      (get_rate_limit_config "starter").requests_per_day) ∧
    (rlCall "starter" "/api/courses" 0 1).allowed = true ∧
    (rlCall "starter" "/api/courses" 0 81).allowed = false ∧
    (rlCall "starter" "/api/courses" 0 81).limit_exceeded = some "minute" := by
  refine ⟨by decide, by decide, ?_, ?_, ?_⟩
  · exact (c3_minute_burst_boundary "starter" "/api/courses" 0 (by decide) (by decide)).1
      1 (by decide) (by decide)
  · exact (c3_minute_burst_boundary "starter" "/api/courses" 0 (by decide) (by decide)).2.1
  · exact (c3_minute_burst_boundary "starter" "/api/courses" 0 (by decide) (by decide)).2.2

/-- C7: the hour and day ceilings are hard limits: whenever the incremented
hour-window count exceeds the plan hourly ceiling or the day-window count
exceeds the daily ceiling, check_rate_limit denies the request, whatever the
minute check and the burst bucket did. -/
theorem c7_hour_day_hard_ceilings (plan endpoint : String) (now : ℚ) (s : RLState)
    (h : s.hourCount + 1 > (get_rate_limit_config plan).requests_per_hour ∨
         s.dayCount + 1 > (get_rate_limit_config plan).requests_per_day) :
    (check_rate_limit plan endpoint now s).1.allowed = false := by
  unfold check_rate_limit
  dsimp only
  split_ifs with h1 h2 h3 <;> first | rfl | (exfalso; omega)

/-- Witness for C7: a starter-plan client whose hour counter already sits at
the 3000 ceiling is denied on the next call. -/
theorem c7_hour_day_hard_ceilings_witness :
    ((⟨0, 3000, 0, none⟩ : RLState).hourCount + 1 >
      (get_rate_limit_config "starter").requests_per_hour ∨
     (⟨0, 3000, 0, none⟩ : RLState).dayCount + 1 >
      (get_rate_limit_config "starter").requests_per_day) ∧
    (check_rate_limit "starter" "/api/courses" 0 ⟨0, 3000, 0, none⟩).1.allowed = false :=
  ⟨Or.inl (by decide),
   c7_hour_day_hard_ceilings "starter" "/api/courses" 0 ⟨0, 3000, 0, none⟩
     (Or.inl (by decide))⟩

def memStep (plan endpoint : String) (now : ℚ) (s : MemState) : MemState :=
  (check_rate_limit_noRedis plan endpoint now s).2

def memIter (plan endpoint : String) (now : ℚ) : ℕ → MemState
  | 0 => ⟨none, none, none⟩
  | n + 1 => memStep plan endpoint now (memIter plan endpoint now n)

def memCall (plan endpoint : String) (now : ℚ) (k : ℕ) : RLResult :=
  (check_rate_limit_noRedis plan endpoint now (memIter plan endpoint now (k - 1))).1

theorem fallback_increment_fresh (now : ℚ) (c : ℕ) :
    fallback_increment now (some ⟨c, now⟩) = (c + 1, ⟨c + 1, now⟩) := by
  have h : now > now - 86400 := by linarith
  simp [fallback_increment, h]

theorem memIter_closed (plan endpoint : String) (now : ℚ) (k : ℕ) (hk : 0 < k) :
    memIter plan endpoint now k = ⟨some ⟨k, now⟩, some ⟨k, now⟩, some ⟨k, now⟩⟩ := by
  induction k with
  | zero => omega
  | succ n ih =>
    rcases Nat.eq_zero_or_pos n with hn | hn
    · subst hn
      rfl
    · rw [memIter, ih hn]
      unfold memStep check_rate_limit_noRedis
      dsimp only
      rw [fallback_increment_fresh]

/-- C5 counterexample: with Redis down, the in-memory fallback still counts.
The first call is allowed but reports 59 remaining for the minute window
(not the full 60 the claim requires), and the 3001st call within the hour
window of a starter-plan client is denied with limit_exceeded hour, so
requests are denied while the backend is down. -/
theorem c5_fail_open_counterexample :
    (memCall "starter" "/api/courses" 0 1).allowed = true ∧
    (memCall "starter" "/api/courses" 0 1).remaining_minute = 59 ∧
    (memCall "starter" "/api/courses" 0 3001).allowed = false ∧
    (memCall "starter" "/api/courses" 0 3001).limit_exceeded = some "hour" := by
  refine ⟨by decide, by decide, ?_, ?_⟩ <;>
  · unfold memCall
    rw [show (3001 - 1 : ℕ) = 3000 from rfl,
        memIter_closed "starter" "/api/courses" 0 3000 (by norm_num)]
    unfold check_rate_limit_noRedis
    dsimp only
    rw [fallback_increment_fresh]
    decide

/-- C5 amended: when the counting backend is unavailable, the simple
auth-middleware RateLimiter does fail open, returning allowed with the full
limit as remaining; the EnterpriseRateLimiter instead falls back to
in-memory counters that keep enforcing the hour and day ceilings (any
fallback denial carries limit_exceeded hour or day), while its minute
ceiling can no longer deny because the fallback burst read reports
burst_capacity / 2 tokens (positive for every configured plan) and
consumption always succeeds. -/
theorem c5_fallback_amended :
    (∀ limit : ℕ, simple_check_rate_limit_noRedis limit = (true, limit)) ∧
    (∀ (plan endpoint : String) (now : ℚ) (s : MemState),
      2 ≤ (get_rate_limit_config plan).burst_capacity →
      ((check_rate_limit_noRedis plan endpoint now s).1.allowed = false →
        (check_rate_limit_noRedis plan endpoint now s).1.limit_exceeded = some "hour" ∨
        (check_rate_limit_noRedis plan endpoint now s).1.limit_exceeded = some "day")) := by
  constructor
  · intro limit
    rfl
  · intro plan endpoint now s hB
    unfold check_rate_limit_noRedis
    dsimp only
    split_ifs with h1 h2 h3 h4 <;> intro hfalse
    · exact Or.inr rfl
    · exact Or.inl rfl
    · exact absurd hfalse (by simp)
    · exfalso
      omega
    · exact absurd hfalse (by simp)

/-- Witness for the amended C5: the simple limiter fails open at limit 60,
and a starter-plan fallback state whose in-memory hour count is 3000 is
denied on the next call with the hour (or day) window named. -/
theorem c5_fallback_amended_witness :
    simple_check_rate_limit_noRedis 60 = (true, 60) ∧
    2 ≤ (get_rate_limit_config "starter").burst_capacity ∧
    ((check_rate_limit_noRedis "starter" "/api/courses" 0
        ⟨none, some ⟨3000, 0⟩, none⟩).1.limit_exceeded = some "hour" ∨
     (check_rate_limit_noRedis "starter" "/api/courses" 0
        ⟨none, some ⟨3000, 0⟩, none⟩).1.limit_exceeded = some "day") := by
  refine ⟨c5_fallback_amended.1 60, by decide, ?_⟩
  refine c5_fallback_amended.2 "starter" "/api/courses" 0 ⟨none, some ⟨3000, 0⟩, none⟩
    (by decide) ?_
  unfold check_rate_limit_noRedis
  dsimp only
  rw [fallback_increment_fresh]
  decide

/-- C4 counterexample: two failing authenticate_user inputs with different
error messages.  An unknown tenant domain fails with Invalid tenant domain,
while an unknown user fails with Invalid credentials, so the tenant step is
distinguishable from the credential steps. -/
theorem c4_message_counterexample :
    (authenticate_user ⟨"secret", 60⟩ (fun s => s) 0 "sid1" "alice@kit.edu" "pw"
        (some "nosuch.example") ⟨[], [], [], []⟩).1.success = false ∧
    (authenticate_user ⟨"secret", 60⟩ (fun s => s) 0 "sid1" "alice@kit.edu" "pw"
        none ⟨[], [], [], []⟩).1.success = false ∧
    (authenticate_user ⟨"secret", 60⟩ (fun s => s) 0 "sid1" "alice@kit.edu" "pw"
        (some "nosuch.example") ⟨[], [], [], []⟩).1.error_message =
      some "Invalid tenant domain" ∧
    (authenticate_user ⟨"secret", 60⟩ (fun s => s) 0 "sid1" "alice@kit.edu" "pw"
        none ⟨[], [], [], []⟩).1.error_message = some "Invalid credentials" ∧
    (some "Invalid tenant domain" ≠ some "Invalid credentials") := by
  refine ⟨by rfl, by rfl, by rfl, by rfl, by decide⟩

/-- C4 amended: the two credential failure modes are indistinguishable —
user-not-found and wrong-password both return exactly the generic Invalid
credentials failure — but tenant resolution failures return the distinct
message Invalid tenant domain (and a missing tenant after password
verification returns No valid tenant found), revealing that the tenant step
failed. -/
theorem c4_generic_credentials_amended :
    (∀ (svc : AuthServiceConfig) (hash : String → String) (now : ℤ)
       (sid email password : String) (st : AuthState),
      find_login_user email none st = none →
      (authenticate_user svc hash now sid email password none st).1 =
        authFailure "Invalid credentials") ∧
    (∀ (svc : AuthServiceConfig) (hash : String → String) (now : ℤ)
       (sid email password : String) (st : AuthState) (uid : String) (user : UserRow),
      find_login_user email none st = some (uid, user) →
      hash password ≠ user.password_hash →
      (authenticate_user svc hash now sid email password none st).1 =
        authFailure "Invalid credentials") ∧
    (∀ (svc : AuthServiceConfig) (hash : String → String) (now : ℤ)
       (sid email password domain : String) (st : AuthState),
      (get_tenant_by_domain domain st).1 = none →
      (authenticate_user svc hash now sid email password (some domain) st).1 =
        authFailure "Invalid tenant domain") := by
  refine ⟨?_, ?_, ?_⟩
  · intro svc hash now sid email password st h
    unfold authenticate_user
    dsimp only
    rw [h]
  · intro svc hash now sid email password st uid user h hp
    unfold authenticate_user
    dsimp only
    rw [h]
    dsimp only
    rw [if_pos hp]
  · intro svc hash now sid email password domain st h
    unfold authenticate_user
    rcases hgt : get_tenant_by_domain domain st with ⟨o, st1⟩
    rw [hgt] at h
    dsimp only at h
    subst h
    dsimp only
    rw [hgt]

/-- C1 counterexample: the tenant config was cached while active (as it is
at token issuance), then the store row was set inactive.  The very next
verify_token call still succeeds, because get_tenant_config consults the
in-process cache first and never re-reads the store for cached tenants, so
deactivation does not invalidate outstanding tokens. -/
theorem c1_stale_cache_counterexample :
    ((⟨[("t1", ⟨"KitMedia", "kit.edu", "starter", 100, none, "2024-01-01T00:00:00",
          some false⟩)], [],
       [("t1", ⟨"t1", "KitMedia", "kit.edu", "starter", 100,
          ["basic_learning", "progress_tracking"], "2024-01-01T00:00:00", true⟩)],
       [("s1", ⟨"u1", "t1", 0, 0⟩)]⟩ : AuthState).institutions.find?
        (fun p => p.1 = "t1")).map (fun p => p.2.is_active) = some (some false) ∧
    (verify_token ⟨"secret", 60⟩ 10
      ⟨⟨"u1", "alice@kit.edu", "student", "t1", "KitMedia",
        base_permissions "student", "s1", 3600, 0⟩, "secret"⟩
      ⟨[("t1", ⟨"KitMedia", "kit.edu", "starter", 100, none, "2024-01-01T00:00:00",
          some false⟩)], [],
       [("t1", ⟨"t1", "KitMedia", "kit.edu", "starter", 100,
          ["basic_learning", "progress_tracking"], "2024-01-01T00:00:00", true⟩)],
       [("s1", ⟨"u1", "t1", 0, 0⟩)]⟩).1 =
      .ok ⟨"u1", "alice@kit.edu", "student", "t1", "KitMedia",
        base_permissions "student", "s1", 3600, 0⟩ := by
  refine ⟨by rfl, by rfl⟩

/-- C1 amended: deactivation is observed only when the tenant config is not
in the in-process cache: for a valid, unexpired token with a live session,
if the cache has no entry for the tenant and the store row is inactive, the
next verify_token call fails — internally with TenantInactive, surfaced to
the caller as 401 Authentication failed because the catch-all except clause
rewrites the HTTPException raised inside the body. -/
theorem c1_tenant_deactivation_amended (svc : AuthServiceConfig) (now : ℤ) (token : Jwt)
    (st : AuthState) (krow : String × InstitutionRow)
    (hsecret : token.secret = svc.jwt_secret)
    (hexp : now < token.payload.exp)
    (hsess : (st.sessions.find? (fun p => p.1 = token.payload.session_id)).isSome = true)
    (hcache : st.tenant_cache.find? (fun p => p.1 = token.payload.tenant_id) = none)
    (hrow : st.institutions.find? (fun p => p.1 = token.payload.tenant_id) = some krow)
    (hinact : krow.2.is_active = some false) :
    (verify_token_inner svc now token st).1 = .error .tenantInactive ∧
    (verify_token svc now token st).1 = .error ⟨401, "Authentication failed"⟩ := by
  have h1 : (verify_token_inner svc now token st).1 = .error .tenantInactive := by
    unfold verify_token_inner jwt_decode
    rw [if_neg (by simp [hsecret])]
    rw [if_neg (by omega)]
    dsimp only
    rcases Option.isSome_iff_exists.mp hsess with ⟨p, hp⟩
    rw [hp]
    dsimp only
    unfold get_tenant_config
    dsimp only
    rw [hcache]
    dsimp only
    rw [hrow]
    dsimp only
    unfold configOfRow
    dsimp only
    rw [hinact]
    rfl
  refine ⟨h1, ?_⟩
  unfold verify_token
  rcases hvi : verify_token_inner svc now token st with ⟨r, st2⟩
  rw [hvi] at h1
  dsimp only at h1
  subst h1
  rfl

/-- After a successful get_tenant_config, the returned config is in the
cache of the returned state under the tenant id. -/
theorem get_tenant_config_cache_hit (tid : String) (st : AuthState) (cfg : TenantConfig)
    (h : (get_tenant_config tid st).1 = some cfg) :
    ∃ key, ((get_tenant_config tid st).2).tenant_cache.find? (fun p => p.1 = tid) =
      some (key, cfg) := by
  unfold get_tenant_config at h ⊢
  rcases hfc : st.tenant_cache.find? (fun p => p.1 = tid) with _ | ⟨a, b⟩
  · rcases hfi : st.institutions.find? (fun p => p.1 = tid) with _ | ⟨c, r⟩
    · rw [hfc, hfi] at h
      exact absurd h (by simp)
    · rw [hfc, hfi] at h
      dsimp only at h
      rw [hfc, hfi]
      dsimp only
      refine ⟨tid, ?_⟩
      rw [List.find?_cons_of_pos _ (by simp)]
      injection h with h'
      rw [h']
  · rw [hfc] at h
    dsimp only at h
    rw [hfc]
    dsimp only
    injection h with h'
    refine ⟨a, ?_⟩
    rw [hfc, h']

/-- C9: token round-trip.  Whatever claims create_access_token issued
(any role, any permission set), verifying that token with the same service
before expiry, on the state the issuance left behind (session live, tenant
active and cached), returns exactly the issued claims. -/
theorem c9_token_round_trip (svc : AuthServiceConfig) (now now2 : ℤ)
    (sid uid tid : String) (st st1 : AuthState) (tok : Jwt) (claims : UserClaims)
    (hc : create_access_token svc now sid uid tid st =
      .ok ((tok, claims), st1))
    (hnow : now2 < claims.exp) :
    (verify_token svc now2 tok st1).1 = .ok claims := by
  unfold create_access_token at hc
  rcases hui : get_user_info uid tid st with _ | info
  · rw [hui] at hc
    exact absurd hc (by simp)
  rw [hui] at hc
  dsimp only at hc
  rcases htc : get_tenant_config tid st with ⟨ocfg, stA⟩
  rw [htc] at hc
  dsimp only at hc
  rcases ocfg with _ | cfg
  · exact absurd hc (by simp)
  dsimp only at hc
  by_cases hact : cfg.is_active = false
  · rw [if_pos hact] at hc
    exact absurd hc (by simp)
  rw [if_neg hact] at hc
  injection hc with hc'
  rw [Prod.mk.injEq, Prod.mk.injEq] at hc'
  obtain ⟨⟨htok, hclaims⟩, hst⟩ := hc'
  subst htok
  subst hclaims
  subst hst
  have hhit := get_tenant_config_cache_hit tid st cfg (by rw [htc])
  rw [htc] at hhit
  dsimp only at hhit
  obtain ⟨key, hkey⟩ := hhit
  unfold verify_token verify_token_inner jwt_decode
  dsimp only
  rw [if_neg (by simp)]
  rw [if_neg (by dsimp only at hnow ⊢; omega)]
  dsimp only
  rw [List.find?_cons_of_pos _ (by simp)]
  dsimp only
  unfold get_tenant_config
  dsimp only
  rw [hkey]
  dsimp only
  rw [if_neg hact]

/-- Witness for the amended C1: one inactive store row, an empty cache and a
live session make verify_token fail with the wrapped 401. -/
theorem c1_tenant_deactivation_amended_witness :
    (verify_token_inner ⟨"secret", 60⟩ 10
      ⟨⟨"u1", "alice@kit.edu", "student", "t1", "KitMedia",
        base_permissions "student", "s1", 3600, 0⟩, "secret"⟩
      ⟨[("t1", ⟨"KitMedia", "kit.edu", "starter", 100, none, "2024-01-01T00:00:00",
          some false⟩)], [], [], [("s1", ⟨"u1", "t1", 0, 0⟩)]⟩).1 =
      .error .tenantInactive ∧
    (verify_token ⟨"secret", 60⟩ 10
      ⟨⟨"u1", "alice@kit.edu", "student", "t1", "KitMedia",
        base_permissions "student", "s1", 3600, 0⟩, "secret"⟩
      ⟨[("t1", ⟨"KitMedia", "kit.edu", "starter", 100, none, "2024-01-01T00:00:00",
          some false⟩)], [], [], [("s1", ⟨"u1", "t1", 0, 0⟩)]⟩).1 =
      .error ⟨401, "Authentication failed"⟩ :=
  c1_tenant_deactivation_amended ⟨"secret", 60⟩ 10
    ⟨⟨"u1", "alice@kit.edu", "student", "t1", "KitMedia",
      base_permissions "student", "s1", 3600, 0⟩, "secret"⟩
    ⟨[("t1", ⟨"KitMedia", "kit.edu", "starter", 100, none, "2024-01-01T00:00:00",
        some false⟩)], [], [], [("s1", ⟨"u1", "t1", 0, 0⟩)]⟩
    ("t1", ⟨"KitMedia", "kit.edu", "starter", 100, none, "2024-01-01T00:00:00",
      some false⟩)
    rfl (by decide) rfl rfl rfl rfl

/-- Witness for the amended C4 at concrete stores: unknown user and wrong
password produce the identical failure, the unknown domain the distinct
one. -/
theorem c4_generic_credentials_amended_witness :
    find_login_user "alice@kit.edu" none ⟨[], [], [], []⟩ = none ∧
    (authenticate_user ⟨"secret", 60⟩ (fun s => s) 0 "sid1" "alice@kit.edu" "pw" none
      ⟨[], [], [], []⟩).1 = authFailure "Invalid credentials" ∧
    find_login_user "bob@kit.edu" none
      ⟨[], [("u1", ⟨"bob@kit.edu", "HASH", "Bob", "B", "student", some "t1", true⟩)],
       [], []⟩ =
      some ("u1", ⟨"bob@kit.edu", "HASH", "Bob", "B", "student", some "t1", true⟩) ∧
    (authenticate_user ⟨"secret", 60⟩ (fun s => s) 0 "sid1" "bob@kit.edu" "pw" none
      ⟨[], [("u1", ⟨"bob@kit.edu", "HASH", "Bob", "B", "student", some "t1", true⟩)],
       [], []⟩).1 = authFailure "Invalid credentials" ∧
    (get_tenant_by_domain "nosuch.example" ⟨[], [], [], []⟩).1 = none ∧
    (authenticate_user ⟨"secret", 60⟩ (fun s => s) 0 "sid1" "alice@kit.edu" "pw"
      (some "nosuch.example") ⟨[], [], [], []⟩).1 =
      authFailure "Invalid tenant domain" :=
  ⟨rfl,
   c4_generic_credentials_amended.1 ⟨"secret", 60⟩ (fun s => s) 0 "sid1" "alice@kit.edu" "pw"
     ⟨[], [], [], []⟩ rfl,
   rfl,
   c4_generic_credentials_amended.2.1 ⟨"secret", 60⟩ (fun s => s) 0 "sid1" "bob@kit.edu" "pw"
     ⟨[], [("u1", ⟨"bob@kit.edu", "HASH", "Bob", "B", "student", some "t1", true⟩)],
      [], []⟩
     "u1" ⟨"bob@kit.edu", "HASH", "Bob", "B", "student", some "t1", true⟩ rfl
     (by decide),
   rfl,
   c4_generic_credentials_amended.2.2 ⟨"secret", 60⟩ (fun s => s) 0 "sid1" "alice@kit.edu" "pw"
     "nosuch.example" ⟨[], [], [], []⟩ rfl⟩

/-- Witness for C9: a concrete student issuance at time 0 verified at time
10 returns the issued claims unchanged. -/
theorem c9_token_round_trip_witness :
    create_access_token ⟨"secret", 60⟩ 0 "s1" "u1" "t1"
      ⟨[("t1", ⟨"KitMedia", "kit.edu", "starter", 100, none, "2024-01-01T00:00:00",
          some true⟩)],
       [("u1", ⟨"alice@kit.edu", "HASH", "Alice", "A", "student", some "t1", true⟩)],
       [], []⟩ =
      .ok ((⟨⟨"u1", "alice@kit.edu", "student", "t1", "KitMedia",
          base_permissions "student", "s1", 3600, 0⟩, "secret"⟩,
        ⟨"u1", "alice@kit.edu", "student", "t1", "KitMedia",
          base_permissions "student", "s1", 3600, 0⟩),
        ⟨[("t1", ⟨"KitMedia", "kit.edu", "starter", 100, none, "2024-01-01T00:00:00",
            some true⟩)],
         [("u1", ⟨"alice@kit.edu", "HASH", "Alice", "A", "student", some "t1", true⟩)],
         [("t1", ⟨"t1", "KitMedia", "kit.edu", "starter", 100,
            ["basic_learning", "progress_tracking"], "2024-01-01T00:00:00", true⟩)],
         [("s1", ⟨"u1", "t1", 0, 0⟩)]⟩) ∧
    (10 : ℤ) < (⟨"u1", "alice@kit.edu", "student", "t1", "KitMedia",
      base_permissions "student", "s1", 3600, 0⟩ : UserClaims).exp ∧
    (verify_token ⟨"secret", 60⟩ 10
      ⟨⟨"u1", "alice@kit.edu", "student", "t1", "KitMedia",
        base_permissions "student", "s1", 3600, 0⟩, "secret"⟩
      ⟨[("t1", ⟨"KitMedia", "kit.edu", "starter", 100, none, "2024-01-01T00:00:00",
          some true⟩)],
       [("u1", ⟨"alice@kit.edu", "HASH", "Alice", "A", "student", some "t1", true⟩)],
       [("t1", ⟨"t1", "KitMedia", "kit.edu", "starter", 100,
          ["basic_learning", "progress_tracking"], "2024-01-01T00:00:00", true⟩)],
       [("s1", ⟨"u1", "t1", 0, 0⟩)]⟩).1 =
      .ok ⟨"u1", "alice@kit.edu", "student", "t1", "KitMedia",
        base_permissions "student", "s1", 3600, 0⟩ :=
  ⟨rfl, by decide,
   c9_token_round_trip ⟨"secret", 60⟩ 0 10 "s1" "u1" "t1"
     ⟨[("t1", ⟨"KitMedia", "kit.edu", "starter", 100, none, "2024-01-01T00:00:00",
         some true⟩)],
      [("u1", ⟨"alice@kit.edu", "HASH", "Alice", "A", "student", some "t1", true⟩)],
      [], []⟩
     ⟨[("t1", ⟨"KitMedia", "kit.edu", "starter", 100, none, "2024-01-01T00:00:00",
         some true⟩)],
      [("u1", ⟨"alice@kit.edu", "HASH", "Alice", "A", "student", some "t1", true⟩)],
      [("t1", ⟨"t1", "KitMedia", "kit.edu", "starter", 100,
         ["basic_learning", "progress_tracking"], "2024-01-01T00:00:00", true⟩)],
      [("s1", ⟨"u1", "t1", 0, 0⟩)]⟩
     ⟨⟨"u1", "alice@kit.edu", "student", "t1", "KitMedia",
       base_permissions "student", "s1", 3600, 0⟩, "secret"⟩
     ⟨"u1", "alice@kit.edu", "student", "t1", "KitMedia",
       base_permissions "student", "s1", 3600, 0⟩
     rfl (by decide)⟩

end AdaptiveLearning
